import Mathlib

/-!
# Order service (`frontend/src/services/order.js`)

A shallow embedding of the `OrderService` class: the pure helpers
`calculateOrderTotal` and `validateOrderData`, and the eight network
operations over an injected transport.

Modelling conventions.

* The numbers of the language are doubles (`JSNumber`): finite values with
  their exact rational value, the two infinities and `NaN`; `+` and `*` round
  to the nearest double.  `calculateOrderTotal` is written once, over any
  arithmetic, and read over the doubles or, for exact arithmetic, over the
  rationals.
* A value held in an object (`JSValue`) is `undefined`, `null`, a boolean, a
  finite number, a string, an array or a plain object.  A property that is
  missing from an object reads as `undefined`.
* The conversions of the platform that depend on text, `StringToNumber`,
  `Number::toString` and `Date.parse`, are parameters (`Platform`), and so is
  the instant of the call.
* `await` on the transport is a call: a transport maps a request and its own
  state to an outcome (a response, or a failure) and a new state.
* The text written to the console in the `catch` blocks is not modelled; it
  does not take part in what an operation returns or raises.
-/

namespace OrderService

/-! ## Numbers -/

/-- A JavaScript number: a finite double, given by its exact rational value, one of
the two infinities, or `NaN`.  The two zeros `+0` and `-0`, which `===` does
not tell apart, are the single value `finite 0`. -/
inductive JSNumber where
  | finite (q : ℚ)
  | posInf
  | negInf
  | nan
deriving DecidableEq

/-- The power `2 ^ k` of an integer exponent. -/
def twoPow (k : ℤ) : ℚ :=
  if 0 ≤ k then (2 : ℚ) ^ k.toNat else 1 / (2 : ℚ) ^ (-k).toNat

/-- The binary logarithm of `n`, rounded down (`0` at `0`), by halving; `fuel` bounds
the number of halvings, `n` itself is enough. -/
def floorLog2 : ℕ → ℕ → ℕ
  | 0, _ => 0
  | fuel + 1, n => if 2 ≤ n then floorLog2 fuel (n / 2) + 1 else 0

/-- The exponent `e` with `2 ^ e ≤ a < 2 ^ (e + 1)`, for `a > 0`. -/
def binaryExponent (a : ℚ) : ℤ :=
  let e : ℤ := (floorLog2 a.num.natAbs a.num.natAbs : ℤ) - (floorLog2 a.den a.den : ℤ)
  if a < twoPow e then e - 1 else e

/-- The integer nearest to `m ≥ 0`, the even one of the two when `m` is half-way. -/
def roundHalfEven (m : ℚ) : ℤ :=
  let f := ⌊m⌋
  let r := m - f
  if r < 1 / 2 then f
  else if 1 / 2 < r then f + 1
  else if f % 2 = 0 then f else f + 1

/-- The double nearest to the exact value `q` (IEEE 754 binary64, round to nearest, ties
to even): 53 significant bits, exponents from -1022 (below which the spacing
stays `2 ^ -1074`) to 1023, and an infinity from `2 ^ 1024` on. -/
def roundToDouble (q : ℚ) : JSNumber :=
  if q = 0 then .finite 0
  else
    let a := |q|
    let e := max (binaryExponent a) (-1022)
    let ulp := twoPow (e - 52)
    let r := (roundHalfEven (a / ulp) : ℚ) * ulp
    if twoPow 1024 ≤ r then (if 0 < q then .posInf else .negInf)
    else .finite (if 0 < q then r else -r)

namespace JSNumber

/-- The operator `*` on numbers. -/
def mul : JSNumber → JSNumber → JSNumber
  | nan, _ => nan
  | _, nan => nan
  | finite a, finite b => roundToDouble (a * b)
  | finite a, posInf => if a = 0 then nan else if 0 < a then posInf else negInf
  | finite a, negInf => if a = 0 then nan else if 0 < a then negInf else posInf
  | posInf, finite b => if b = 0 then nan else if 0 < b then posInf else negInf
  | negInf, finite b => if b = 0 then nan else if 0 < b then negInf else posInf
  | posInf, posInf => posInf
  | posInf, negInf => negInf
  | negInf, posInf => negInf
  | negInf, negInf => posInf

/-- The operator `+` on numbers. -/
def add : JSNumber → JSNumber → JSNumber
  | nan, _ => nan
  | _, nan => nan
  | finite a, finite b => roundToDouble (a + b)
  | finite _, posInf => posInf
  | finite _, negInf => negInf
  | posInf, finite _ => posInf
  | negInf, finite _ => negInf
  | posInf, posInf => posInf
  | posInf, negInf => nan
  | negInf, posInf => nan
  | negInf, negInf => negInf

/-- The operator `<=` on numbers: false as soon as one side is `NaN`. -/
def le : JSNumber → JSNumber → Bool
  | nan, _ => false
  | _, nan => false
  | finite a, finite b => decide (a ≤ b)
  | finite _, posInf => true
  | finite _, negInf => false
  | posInf, finite _ => false
  | negInf, finite _ => true
  | posInf, posInf => true
  | posInf, negInf => false
  | negInf, posInf => true
  | negInf, negInf => true

/-- The operator `<` on numbers: false as soon as one side is `NaN`. -/
def lt : JSNumber → JSNumber → Bool
  | nan, _ => false
  | _, nan => false
  | finite a, finite b => decide (a < b)
  | finite _, posInf => true
  | finite _, negInf => false
  | posInf, finite _ => false
  | negInf, finite _ => true
  | posInf, posInf => false
  | posInf, negInf => false
  | negInf, posInf => true
  | negInf, negInf => false

instance : Zero JSNumber := ⟨finite 0⟩

instance : Add JSNumber := ⟨add⟩

instance : Mul JSNumber := ⟨mul⟩

end JSNumber

/-! ## Total calculation -/

/-- An element of the `items` array of `calculateOrderTotal`: the two
properties the function reads, numbers of the arithmetic `α`. -/
structure OrderItem (α : Type) where
  price : α
  quantity : α

/-- The object literal returned by `calculateOrderTotal`. -/
structure OrderTotal (α : Type) where
  subtotal : α
  tax : α
  total : α
  itemCount : α

/-- Embedding of `calculateOrderTotal(items, taxRate = 0)`, over the arithmetic `α`: the
doubles of the language (`JSNumber`), or the rationals for exact arithmetic.
The argument `taxRate` is `none` when the caller omits it, in which case the
default `0` is taken; `Array.prototype.reduce` with an initial value is a
left fold. -/
def calculateOrderTotal {α : Type} [Zero α] [Add α] [Mul α] (items : List (OrderItem α))
    (taxRate : Option α) : OrderTotal α :=
  let taxRate := taxRate.getD 0
  let subtotal := items.foldl (fun sum item => sum + (item.price * item.quantity)) 0
  let tax := subtotal * taxRate
  let total := subtotal + tax
  { subtotal := subtotal
    tax := tax
    total := total
    itemCount := items.foldl (fun count item => count + item.quantity) 0 }

/-! ## JavaScript values -/

/-- A JavaScript value, as far as this module looks at one: the payload of a
response, a request body, a property of the order under validation. -/
inductive JSValue where
  | undefined
  | null
  | bool (b : Bool)
  | number (q : ℚ)
  | string (s : String)
  | array (items : List JSValue)
  | object (props : List (String × JSValue))

namespace JSValue

/-- The conversion `ToBoolean`, applied by `!`, `||`, `&&` and `if`: `undefined`, `null`,
`false`, `0` and the empty string are falsy, every other value is truthy. -/
def toBoolean : JSValue → Bool
  | undefined => false
  | null => false
  | bool b => b
  | number q => decide (q ≠ 0)
  | string s => decide (s ≠ "")
  | array _ => true
  | object _ => true

/-- The expression `a || b`: `a` when it is truthy, else `b`. -/
def or (a b : JSValue) : JSValue :=
  if a.toBoolean then a else b

/-- A default parameter `x = d`: the default replaces exactly `undefined`. -/
def orDefault (x d : JSValue) : JSValue :=
  match x with
  | undefined => d
  | v => v

mutual

/-- The conversion `ToString`; an array is the join of its elements, a plain object
is `[object Object]`.  `numberToString` is `Number::toString`. -/
def toStringValue (numberToString : ℚ → String) : JSValue → String
  | undefined => "undefined"
  | null => "null"
  | bool b => if b then "true" else "false"
  | number q => numberToString q
  | string s => s
  | array items => join numberToString items
  | object _ => "[object Object]"

/-- The method `Array.prototype.join` with the separator `,`: `undefined` and `null`
elements give the empty string. -/
def join (numberToString : ℚ → String) : List JSValue → String
  | [] => ""
  | x :: rest =>
    (match x with
      | undefined => ""
      | null => ""
      | _ => toStringValue numberToString x)
    ++ (match rest with
      | [] => ""
      | _ :: _ => "," ++ join numberToString rest)

end

end JSValue

/-- The conversions of the platform that read or write text. -/
structure Platform where
  /-- The conversion `StringToNumber`, applied to a string that is compared with a number. -/
  stringToNumber : String → JSNumber
  /-- The conversion `Number::toString`, of a finite number. -/
  numberToString : ℚ → String
  /-- The function `Date.parse`: the time value of a date string, `none` for `NaN`. -/
  dateParse : String → Option ℤ

/-- The conversion `ToNumber`; an array or an object is first converted to a string
(its `valueOf` gives no primitive value, its `toString` does). -/
def toNumber (platform : Platform) : JSValue → JSNumber
  | .undefined => .nan
  | .null => .finite 0
  | .bool b => .finite (if b then 1 else 0)
  | .number q => .finite q
  | .string s => platform.stringToNumber s
  | .array items =>
    platform.stringToNumber (JSValue.toStringValue platform.numberToString (.array items))
  | .object props =>
    platform.stringToNumber (JSValue.toStringValue platform.numberToString (.object props))

/-! ## Validation -/

/-- The `deliveryDate` property: missing, `null`, a date string, a numeric
timestamp, or a `Date` object with its time value (`none`: an invalid date). -/
inductive DateValue where
  | undefined
  | null
  | string (s : String)
  | number (q : ℚ)
  | date (time : Option ℤ)

namespace DateValue

/-- The conversion `ToBoolean` on the values of the `deliveryDate` property; an object
is truthy, an invalid `Date` included. -/
def toBoolean : DateValue → Bool
  | undefined => false
  | null => false
  | string s => decide (s ≠ "")
  | number q => decide (q ≠ 0)
  | date _ => true

end DateValue

/-- The operation `TimeClip` of the `Date` constructor on a number: beyond
8.64e15 milliseconds from the epoch there is no date, within it the number
is truncated towards zero. -/
def timeClip (q : ℚ) : Option ℤ :=
  if |q| > 8640000000000000 then none
  else some (if 0 ≤ q then ⌊q⌋ else ⌈q⌉)

/-- The time value of `new Date(value)`, in milliseconds since the epoch; `none` is
the invalid date (time value `NaN`).  The platform parser of date strings,
`Date.parse`, is the parameter `dateParse`. -/
def newDate (dateParse : String → Option ℤ) : DateValue → Option ℤ
  | .undefined => none
  | .null => some 0
  | .string s => dateParse s
  | .number q => timeClip q
  | .date time => time

/-- The comparison `a <= b` of two `Date` objects: of their time values, and false
as soon as one of them is `NaN`. -/
def dateLe : Option ℤ → Option ℤ → Bool
  | some a, some b => decide (a ≤ b)
  | _, _ => false

/-- The array literal of the accepted payment methods. -/
def payMethods : List String := ["MTN MoMo", "Orange Money", "Wave"]

/-- The call `payMethods.includes(value)`: strict comparison with each label, so only
a string can be found. -/
def includes (labels : List String) : JSValue → Bool
  | .string s => labels.contains s
  | _ => false

/-- The properties of `orderData` that `validateOrderData` reads; `plat`, `customer`,
`category`, `price` and `payMethod` are arbitrary values. -/
structure OrderData where
  plat : JSValue := .undefined
  customer : JSValue := .undefined
  category : JSValue := .undefined
  price : JSValue := .undefined
  deliveryDate : DateValue := .undefined
  payMethod : JSValue := .undefined

/-- Embedding of `validateOrderData(orderData)`.  `now` is the time value of `new Date()`,
the instant of the call; `errors.push(m)` appends `m` at the end; the
comparison `price <= 0` is the comparison of numbers after `ToNumber`. -/
def validateOrderData (platform : Platform) (now : ℤ) (orderData : OrderData) : List String :=
  let errors : List String := []
  let errors :=
    if !orderData.plat.toBoolean then errors ++ ["Le plat est requis"] else errors
  let errors :=
    if !orderData.customer.toBoolean then errors ++ ["Le client est requis"] else errors
  let errors :=
    if !orderData.category.toBoolean then errors ++ ["La catégorie est requise"] else errors
  let errors :=
    if !orderData.price.toBoolean || JSNumber.le (toNumber platform orderData.price) 0 then
      errors ++ ["Le prix doit être supérieur à 0"]
    else errors
  let errors :=
    if !orderData.deliveryDate.toBoolean then
      errors ++ ["La date de livraison est requise"]
    else
      let deliveryDate := newDate platform.dateParse orderData.deliveryDate
      let today := some now
      if dateLe deliveryDate today then
        errors ++ ["La date de livraison doit être dans le futur"]
      else errors
  let errors :=
    if orderData.payMethod.toBoolean && !includes payMethods orderData.payMethod then
      errors ++ ["Méthode de paiement invalide"]
    else errors
  errors

/-- The six checks as the specification words them, in its order plat, customer,
category, price, deliveryDate, payMethod; an entry holds the message of its
check when the check fails.  The price must be present and strictly greater
than 0; the delivery date must be present and, once parsed, strictly later
than the current instant; a payment method that is supplied must be one of
the three labels. -/
def failingChecks (platform : Platform) (now : ℤ) (orderData : OrderData) :
    List (Option String) :=
  [ if orderData.plat.toBoolean then none else some "Le plat est requis",
    if orderData.customer.toBoolean then none else some "Le client est requis",
    if orderData.category.toBoolean then none else some "La catégorie est requise",
    if orderData.price.toBoolean && JSNumber.lt 0 (toNumber platform orderData.price) then none
    else some "Le prix doit être supérieur à 0",
    if orderData.deliveryDate.toBoolean then
      (match newDate platform.dateParse orderData.deliveryDate with
        | some t => if now < t then none else some "La date de livraison doit être dans le futur"
        | none => some "La date de livraison doit être dans le futur")
    else some "La date de livraison est requise",
    if orderData.payMethod.toBoolean then
      (if includes payMethods orderData.payMethod then none else some "Méthode de paiement invalide")
    else none ]

/-! ### The contribution of each check -/

/-- The contribution of the `plat`, `customer` and `category` checks. -/
def presenceErrors (value : JSValue) (message : String) : List String :=
  if value.toBoolean then [] else [message]

/-- The contribution of the `price` check. -/
def priceErrors (platform : Platform) (price : JSValue) : List String :=
  if !price.toBoolean || JSNumber.le (toNumber platform price) 0 then
    ["Le prix doit être supérieur à 0"]
  else []

/-- The contribution of the `deliveryDate` check. -/
def deliveryDateErrors (dateParse : String → Option ℤ) (now : ℤ) (value : DateValue) :
    List String :=
  if value.toBoolean then
    (if dateLe (newDate dateParse value) (some now) then
      ["La date de livraison doit être dans le futur"] else [])
  else ["La date de livraison est requise"]

/-- The contribution of the `payMethod` check. -/
def payMethodErrors (value : JSValue) : List String :=
  if value.toBoolean && !includes payMethods value then ["Méthode de paiement invalide"] else []

/-! ## Network operations -/

/-- The object a successful transport call resolves to; `data` is `undefined` when
the response has no such property. -/
structure Response where
  data : JSValue := .undefined

/-- The value a failing transport call rejects with; `message` is `none` when it has
no such property. -/
structure TransportError where
  message : Option String := none

/-- The object built by `new Error(message)`. -/
structure JSError where
  message : String

/-- The collaborator `apiMethods` of `./api.js`, injected: `get(url, params)`,
`post(url, body)` and `patch(url, body)`, each from the state of the
transport to an outcome and the next state.  A second argument that the
caller does not pass is `undefined`. -/
structure ApiMethods (σ : Type) where
  get : String → JSValue → σ → Except TransportError Response × σ
  post : String → JSValue → σ → Except TransportError Response × σ
  patch : String → JSValue → σ → Except TransportError Response × σ

/-- The static property `baseURL`. -/
def baseURL : String := "/orders"

/-- The expression `error.message || fallback`: the message when it is a non-empty
string, else the fallback. -/
def messageOr (message : Option String) (fallback : String) : String :=
  match message with
  | some m => if m ≠ "" then m else fallback
  | none => fallback

/-- Embedding of `getUserOrders()`. -/
def getUserOrders {σ : Type} (apiMethods : ApiMethods σ) (s : σ) : Except JSError JSValue × σ :=
  match apiMethods.get (baseURL ++ "/user") .undefined s with
  | (.ok response, s) => (.ok (response.data.or (.array [])), s)
  | (.error error, s) =>
    (.error ⟨messageOr error.message "Impossible de récupérer les commandes"⟩, s)

/-- Embedding of `getAllOrders(filters = {})`. -/
def getAllOrders {σ : Type} (apiMethods : ApiMethods σ) (filters : JSValue) (s : σ) :
    Except JSError JSValue × σ :=
  let filters := filters.orDefault (.object [])
  match apiMethods.get baseURL filters s with
  | (.ok response, s) => (.ok (response.data.or (.array [])), s)
  | (.error error, s) =>
    (.error ⟨messageOr error.message "Impossible de récupérer les commandes"⟩, s)

/-- Embedding of `getOrderById(orderId)`. -/
def getOrderById {σ : Type} (apiMethods : ApiMethods σ) (orderId : String) (s : σ) :
    Except JSError JSValue × σ :=
  match apiMethods.get (baseURL ++ "/" ++ orderId) .undefined s with
  | (.ok response, s) => (.ok response.data, s)
  | (.error error, s) => (.error ⟨messageOr error.message "Commande non trouvée"⟩, s)

/-- Embedding of `createOrder(orderData)`. -/
def createOrder {σ : Type} (apiMethods : ApiMethods σ) (orderData : JSValue) (s : σ) :
    Except JSError JSValue × σ :=
  match apiMethods.post baseURL orderData s with
  | (.ok response, s) => (.ok response.data, s)
  | (.error error, s) => (.error ⟨messageOr error.message "Impossible de créer la commande"⟩, s)

/-- Embedding of `updateOrderStatus(orderId, status)`; the body is the object `{ status }`. -/
def updateOrderStatus {σ : Type} (apiMethods : ApiMethods σ) (orderId : String)
    (status : JSValue) (s : σ) : Except JSError JSValue × σ :=
  match apiMethods.patch (baseURL ++ "/" ++ orderId ++ "/status")
      (.object [("status", status)]) s with
  | (.ok response, s) => (.ok response.data, s)
  | (.error error, s) =>
    (.error ⟨messageOr error.message "Impossible de mettre à jour le statut"⟩, s)

/-- Embedding of `cancelOrder(orderId, reason = 'Annulée par l\'utilisateur')`; the body is
the object `{ reason }`. -/
def cancelOrder {σ : Type} (apiMethods : ApiMethods σ) (orderId : String) (reason : JSValue)
    (s : σ) : Except JSError JSValue × σ :=
  let reason := reason.orDefault (.string "Annulée par l'utilisateur")
  match apiMethods.patch (baseURL ++ "/" ++ orderId ++ "/cancel")
      (.object [("reason", reason)]) s with
  | (.ok response, s) => (.ok response.data, s)
  | (.error error, s) => (.error ⟨messageOr error.message "Impossible d'annuler la commande"⟩, s)

/-- Embedding of `addOrderReview(orderId, reviewData)`. -/
def addOrderReview {σ : Type} (apiMethods : ApiMethods σ) (orderId : String)
    (reviewData : JSValue) (s : σ) : Except JSError JSValue × σ :=
  match apiMethods.post (baseURL ++ "/" ++ orderId ++ "/review") reviewData s with
  | (.ok response, s) => (.ok response.data, s)
  | (.error error, s) => (.error ⟨messageOr error.message "Impossible d'ajouter l'avis"⟩, s)

/-- Embedding of `getOrderStats(filters = {})`. -/
def getOrderStats {σ : Type} (apiMethods : ApiMethods σ) (filters : JSValue) (s : σ) :
    Except JSError JSValue × σ :=
  let filters := filters.orDefault (.object [])
  match apiMethods.get (baseURL ++ "/stats") filters s with
  | (.ok response, s) => (.ok response.data, s)
  | (.error error, s) =>
    (.error ⟨messageOr error.message "Impossible de récupérer les statistiques"⟩, s)

/-! ### Transports used to observe the operations -/

/-- The three entry points of the transport. -/
inductive HttpMethod where
  | GET
  | POST
  | PATCH

/-- One call received by the transport. -/
structure Call where
  method : HttpMethod
  url : String
  payload : JSValue

/-- A transport that records every call it receives, in order, and answers
as `respond` says. -/
def recording (respond : Call → Except TransportError Response) : ApiMethods (List Call) :=
  { get := fun url params log => (respond ⟨.GET, url, params⟩, log ++ [⟨.GET, url, params⟩])
    post := fun url body log => (respond ⟨.POST, url, body⟩, log ++ [⟨.POST, url, body⟩])
    patch := fun url body log => (respond ⟨.PATCH, url, body⟩, log ++ [⟨.PATCH, url, body⟩]) }

/-- A transport that counts its calls and gives every one of them the outcome
`outcome`. -/
def constant (outcome : Except TransportError Response) : ApiMethods ℕ :=
  { get := fun _ _ n => (outcome, n + 1)
    post := fun _ _ n => (outcome, n + 1)
    patch := fun _ _ n => (outcome, n + 1) }

/-! ### Example data -/

/-- The values of `Date.parse` on the two ISO strings used in the examples below
(midnight UTC of 1 January 2000 and of 1 January 2100); a string that is not
a date has no time value. -/
def exampleDateParse (s : String) : Option ℤ :=
  if s = "2000-01-01T00:00:00.000Z" then some 946684800000
  else if s = "2100-01-01T00:00:00.000Z" then some 4102444800000
  else none

/-- The platform conversions on the texts and numbers used in the examples below:
`StringToNumber` gives 0 on the empty string, 10 on `"10"` and `NaN` on a
text that is not a numeric literal (`"abc"`, `"[object Object]"`);
`Number::toString` gives `"10"` on 10. -/
def examplePlatform : Platform :=
  { stringToNumber := fun s =>
      if s = "" then .finite 0 else if s = "10" then .finite 10 else .nan
    numberToString := fun q => if q = 10 then "10" else "0"
    dateParse := exampleDateParse }

/-- An order whose `deliveryDate` is a string that is not a date; every other property
is valid. -/
def orderWithUnparseableDate : OrderData :=
  { plat := .string "Garba"
    customer := .string "client-17"
    category := .string "Déjeuner"
    price := .number 2500
    deliveryDate := .string "pas une date"
    payMethod := .string "Wave" }

/-- An order with a single property, a `deliveryDate` that is not a date. -/
def orderWithOnlyADate : OrderData :=
  { deliveryDate := .string "bientôt" }

/-- An order valid in every property but its price, due on 1 January 2100. -/
def orderPriced (price : JSValue) : OrderData :=
  { plat := .string "Garba"
    customer := .string "client-17"
    category := .string "Déjeuner"
    price := price
    deliveryDate := .string "2100-01-01T00:00:00.000Z"
    payMethod := .string "Wave" }

/-- An order valid in every property but, possibly, its delivery date. -/
def orderDueOn (deliveryDate : DateValue) : OrderData :=
  { plat := .string "Garba"
    customer := .string "client-17"
    category := .string "Déjeuner"
    price := .number 2500
    deliveryDate := deliveryDate
    payMethod := .string "Wave" }

/-- An order valid in every property but, possibly, its payment method, due on
1 January 2100. -/
def orderPaidWith (payMethod : JSValue) : OrderData :=
  { plat := .string "Garba"
    customer := .string "client-17"
    category := .string "Déjeuner"
    price := .number 2500
    deliveryDate := .string "2100-01-01T00:00:00.000Z"
    payMethod := payMethod }

/-! ## Total calculation: theorems -/

theorem foldl_subtotal_eq (items : List (OrderItem ℚ)) (init : ℚ) :
    items.foldl (fun sum item => sum + (item.price * item.quantity)) init
      = init + (items.map (fun item => item.price * item.quantity)).sum := by
  induction items generalizing init with
  | nil => simp
  | cons x xs ih => simp [ih, add_assoc]

theorem foldl_itemCount_eq (items : List (OrderItem ℚ)) (init : ℚ) :
    items.foldl (fun count item => count + item.quantity) init
      = init + (items.map (fun item => item.quantity)).sum := by
  induction items generalizing init with
  | nil => simp
  | cons x xs ih => simp [ih, add_assoc]

theorem roundToDouble_zero : roundToDouble 0 = JSNumber.finite 0 := by
  simp [roundToDouble]

theorem JSNumber.zero_def : (0 : JSNumber) = JSNumber.finite 0 := rfl

theorem JSNumber.add_def (a b : JSNumber) : a + b = JSNumber.add a b := rfl

theorem JSNumber.mul_def (a b : JSNumber) : a * b = JSNumber.mul a b := rfl

/-- Two products of doubles that are not the exact ones: `100 * 0.07` is
`7.000000000000001`, the double after 7, and `1e308 * 10` is `Infinity`. -/
theorem JSNumber.mul_rounds :
    JSNumber.finite 100 * roundToDouble (7 / 100) = JSNumber.finite (7 + 1 / 2 ^ 50)
    ∧ roundToDouble (10 ^ 308) * JSNumber.finite 10 = JSNumber.posInf := by
  constructor <;> decide!

/-- Sums of doubles depend on the order: `(0.1 + 0.2) + 0.3` is not `0.1 + (0.2 + 0.3)`. -/
theorem JSNumber.add_not_assoc :
    (roundToDouble (1 / 10) + roundToDouble (2 / 10)) + roundToDouble (3 / 10)
      ≠ roundToDouble (1 / 10) + (roundToDouble (2 / 10) + roundToDouble (3 / 10)) := by
  decide!

/-- C1, refuted as stated: on the empty list with `taxRate` `Infinity` the code computes
`tax = 0 * Infinity`, which is `NaN`, and `total = 0 + NaN`, which is `NaN`;
neither is 0. -/
theorem calculateOrderTotal_empty_infinite_taxRate :
    (calculateOrderTotal ([] : List (OrderItem JSNumber)) (some JSNumber.posInf)).tax
        = JSNumber.nan
    ∧ (calculateOrderTotal ([] : List (OrderItem JSNumber)) (some JSNumber.posInf)).total
        = JSNumber.nan
    ∧ (calculateOrderTotal ([] : List (OrderItem JSNumber)) (some JSNumber.posInf)).tax ≠ 0
    ∧ (calculateOrderTotal ([] : List (OrderItem JSNumber)) (some JSNumber.posInf)).total ≠ 0 := by
  decide

/-- C1, amended. Over exact arithmetic, for every list of items and every tax rate
(omitted: `0`), `calculateOrderTotal` returns `subtotal` the sum of
`price * quantity`, `tax = subtotal * taxRate`, `total = subtotal + tax` and
`itemCount` the sum of the quantities.  In the arithmetic of doubles the
empty list gives four zeros at every finite tax rate and at an omitted one,
and the two-item example at rate `0.18` gives 2500, 450, 2950 and 3. -/
theorem calculateOrderTotal_spec :
    (∀ (items : List (OrderItem ℚ)) (taxRate : Option ℚ),
      (calculateOrderTotal items taxRate).subtotal
          = (items.map (fun item => item.price * item.quantity)).sum
      ∧ (calculateOrderTotal items taxRate).tax
          = (items.map (fun item => item.price * item.quantity)).sum * taxRate.getD 0
      ∧ (calculateOrderTotal items taxRate).total
          = (calculateOrderTotal items taxRate).subtotal + (calculateOrderTotal items taxRate).tax
      ∧ (calculateOrderTotal items taxRate).itemCount
          = (items.map (fun item => item.quantity)).sum)
    ∧ (∀ r : ℚ,
        (calculateOrderTotal ([] : List (OrderItem JSNumber)) (some (.finite r))).subtotal = 0
        ∧ (calculateOrderTotal ([] : List (OrderItem JSNumber)) (some (.finite r))).tax = 0
        ∧ (calculateOrderTotal ([] : List (OrderItem JSNumber)) (some (.finite r))).total = 0
        ∧ (calculateOrderTotal ([] : List (OrderItem JSNumber)) (some (.finite r))).itemCount = 0)
    ∧ ((calculateOrderTotal ([] : List (OrderItem JSNumber)) none).subtotal = 0
        ∧ (calculateOrderTotal ([] : List (OrderItem JSNumber)) none).tax = 0
        ∧ (calculateOrderTotal ([] : List (OrderItem JSNumber)) none).total = 0
        ∧ (calculateOrderTotal ([] : List (OrderItem JSNumber)) none).itemCount = 0)
    ∧ (calculateOrderTotal [⟨.finite 1000, .finite 2⟩, ⟨.finite 500, .finite 1⟩]
          (some (roundToDouble (18 / 100)))).subtotal = JSNumber.finite 2500
    ∧ (calculateOrderTotal [⟨.finite 1000, .finite 2⟩, ⟨.finite 500, .finite 1⟩]
          (some (roundToDouble (18 / 100)))).tax = JSNumber.finite 450
    ∧ (calculateOrderTotal [⟨.finite 1000, .finite 2⟩, ⟨.finite 500, .finite 1⟩]
          (some (roundToDouble (18 / 100)))).total = JSNumber.finite 2950
    ∧ (calculateOrderTotal [⟨.finite 1000, .finite 2⟩, ⟨.finite 500, .finite 1⟩]
          (some (roundToDouble (18 / 100)))).itemCount = JSNumber.finite 3 := by
  refine ⟨?_, ?_, ?_, ?_, ?_, ?_, ?_⟩
  · intro items taxRate
    simp only [calculateOrderTotal, foldl_subtotal_eq, foldl_itemCount_eq, zero_add]
    exact ⟨trivial, trivial, trivial, trivial⟩
  · intro r
    simp only [calculateOrderTotal, List.foldl, Option.getD, JSNumber.zero_def,
      JSNumber.mul_def, JSNumber.add_def, JSNumber.mul, JSNumber.add, zero_mul, add_zero,
      roundToDouble_zero]
    exact ⟨trivial, trivial, trivial, trivial⟩
  · decide!
  all_goals decide!

/-- C10. Over exact arithmetic `calculateOrderTotal` is additive over concatenation: each of
the four fields of the result on `a ++ b` is the sum of that field on `a` and
on `b`, at every tax rate. -/
theorem calculateOrderTotal_append (a b : List (OrderItem ℚ)) (r : Option ℚ) :
    (calculateOrderTotal (a ++ b) r).subtotal
        = (calculateOrderTotal a r).subtotal + (calculateOrderTotal b r).subtotal
    ∧ (calculateOrderTotal (a ++ b) r).tax
        = (calculateOrderTotal a r).tax + (calculateOrderTotal b r).tax
    ∧ (calculateOrderTotal (a ++ b) r).total
        = (calculateOrderTotal a r).total + (calculateOrderTotal b r).total
    ∧ (calculateOrderTotal (a ++ b) r).itemCount
        = (calculateOrderTotal a r).itemCount + (calculateOrderTotal b r).itemCount := by
  simp only [calculateOrderTotal, foldl_subtotal_eq, foldl_itemCount_eq, zero_add,
    List.map_append, List.sum_append]
  refine ⟨trivial, ?_, ?_, trivial⟩ <;> ring

/-! ## Validation: theorems -/

/-- The conversion of an array to a string joins the strings of its elements with commas,
nested arrays included; `null` gives the empty string, a plain object
`[object Object]`. -/
theorem toStringValue_array :
    JSValue.toStringValue examplePlatform.numberToString
        (.array [.number 10, .null, .array [.string "a", .bool true], .object []])
      = "10,,a,true,[object Object]"
    ∧ toNumber examplePlatform (.array [.number 10, .number 10]) = JSNumber.nan := by
  constructor <;> decide!

theorem validateOrderData_eq_append (platform : Platform) (now : ℤ) (d : OrderData) :
    validateOrderData platform now d
      = presenceErrors d.plat "Le plat est requis"
        ++ (presenceErrors d.customer "Le client est requis"
        ++ (presenceErrors d.category "La catégorie est requise"
        ++ (priceErrors platform d.price
        ++ (deliveryDateErrors platform.dateParse now d.deliveryDate
        ++ payMethodErrors d.payMethod)))) := by
  simp only [validateOrderData, presenceErrors, priceErrors, deliveryDateErrors, payMethodErrors]
  cases d.plat.toBoolean <;> cases d.customer.toBoolean <;> cases d.category.toBoolean <;>
    cases (!d.price.toBoolean || JSNumber.le (toNumber platform d.price) 0) <;>
    cases d.deliveryDate.toBoolean <;>
    cases dateLe (newDate platform.dateParse d.deliveryDate) (some now) <;>
    cases (d.payMethod.toBoolean && !includes payMethods d.payMethod) <;> rfl

theorem presenceErrors_mem (value : JSValue) (message x : String) :
    x ∈ presenceErrors value message ↔ (value.toBoolean = false ∧ x = message) := by
  unfold presenceErrors
  cases value.toBoolean <;> simp

theorem priceErrors_mem (platform : Platform) (price : JSValue) (x : String) :
    x ∈ priceErrors platform price
      ↔ (x = "Le prix doit être supérieur à 0"
          ∧ (price.toBoolean = false ∨ JSNumber.le (toNumber platform price) 0 = true)) := by
  unfold priceErrors
  cases price.toBoolean <;> cases JSNumber.le (toNumber platform price) 0 <;> simp

theorem price_test_number (platform : Platform) (q : ℚ) :
    (!(JSValue.number q).toBoolean || JSNumber.le (toNumber platform (.number q)) 0) = false
      ↔ 0 < q := by
  simp only [JSValue.toBoolean, toNumber, JSNumber.zero_def, JSNumber.le, Bool.or_eq_false_iff,
    Bool.not_eq_false', decide_eq_true_eq, decide_eq_false_iff_not, not_le]
  constructor
  · intro h; exact h.2
  · intro h; exact ⟨ne_of_gt h, h⟩

theorem JSNumber.le_zero_eq_not_lt (x : JSNumber) (hx : x ≠ JSNumber.nan) :
    JSNumber.le x 0 = !JSNumber.lt 0 x := by
  cases x with
  | finite q =>
    simp only [JSNumber.zero_def, JSNumber.le, JSNumber.lt]
    by_cases h : q ≤ 0
    · simp [h]
    · simp [h, not_le.1 h]
  | posInf => rfl
  | negInf => rfl
  | nan => exact absurd rfl hx

theorem dateLe_some_iff (a : Option ℤ) (now : ℤ) :
    dateLe a (some now) = true ↔ ∃ t, a = some t ∧ t ≤ now := by
  cases a <;> simp [dateLe]

theorem deliveryDateErrors_mem (dateParse : String → Option ℤ) (now : ℤ) (value : DateValue)
    (x : String) :
    x ∈ deliveryDateErrors dateParse now value
      ↔ (x = "La date de livraison est requise" ∧ value.toBoolean = false)
        ∨ (x = "La date de livraison doit être dans le futur" ∧ value.toBoolean = true
            ∧ ∃ t, newDate dateParse value = some t ∧ t ≤ now) := by
  rw [← dateLe_some_iff]
  unfold deliveryDateErrors
  cases value.toBoolean <;> cases dateLe (newDate dateParse value) (some now) <;> simp

theorem payMethodErrors_mem (value : JSValue) (x : String) :
    x ∈ payMethodErrors value
      ↔ (x = "Méthode de paiement invalide" ∧ value.toBoolean = true
          ∧ includes payMethods value = false) := by
  unfold payMethodErrors
  cases value.toBoolean <;> cases includes payMethods value <;> simp

theorem includes_payMethods_iff (value : JSValue) :
    includes payMethods value = true
      ↔ (value = .string "MTN MoMo" ∨ value = .string "Orange Money" ∨ value = .string "Wave") := by
  cases value <;> simp [includes, payMethods]

theorem filterMap_id_six (a b c d e f : Option String) :
    [a, b, c, d, e, f].filterMap id
      = a.toList ++ (b.toList ++ (c.toList ++ (d.toList ++ (e.toList ++ f.toList)))) := by
  cases a <;> cases b <;> cases c <;> cases d <;> cases e <;> cases f <;> rfl

theorem mem_validateOrderData (platform : Platform) (now : ℤ) (d : OrderData) (x : String) :
    x ∈ validateOrderData platform now d
      ↔ x ∈ presenceErrors d.plat "Le plat est requis"
        ∨ x ∈ presenceErrors d.customer "Le client est requis"
        ∨ x ∈ presenceErrors d.category "La catégorie est requise"
        ∨ x ∈ priceErrors platform d.price
        ∨ x ∈ deliveryDateErrors platform.dateParse now d.deliveryDate
        ∨ x ∈ payMethodErrors d.payMethod := by
  rw [validateOrderData_eq_append]
  simp only [List.mem_append]

/-- The six checks are evaluated independently and in the fixed order: whenever the price
converts to a number (or is absent) and the delivery date parses to a valid
date (or is absent), `validateOrderData` returns the messages of exactly the
checks that fail as the specification words them. -/
theorem validateOrderData_failingChecks_of_numbers (platform : Platform) (now : ℤ)
    (d : OrderData)
    (hprice : d.price.toBoolean = false ∨ toNumber platform d.price ≠ JSNumber.nan)
    (hdate : d.deliveryDate.toBoolean = false
      ∨ newDate platform.dateParse d.deliveryDate ≠ none) :
    validateOrderData platform now d = (failingChecks platform now d).filterMap id := by
  rw [validateOrderData_eq_append]
  have hpresence : ∀ (v : JSValue) (m : String),
      presenceErrors v m = (if v.toBoolean then none else some m).toList := by
    intro v m
    unfold presenceErrors
    cases v.toBoolean <;> rfl
  have hpay : payMethodErrors d.payMethod
      = (if d.payMethod.toBoolean then
          (if includes payMethods d.payMethod then none
           else some "Méthode de paiement invalide")
         else none).toList := by
    unfold payMethodErrors
    cases d.payMethod.toBoolean <;> cases includes payMethods d.payMethod <;> rfl
  have hp : priceErrors platform d.price
      = (if d.price.toBoolean && JSNumber.lt 0 (toNumber platform d.price) then none
         else some "Le prix doit être supérieur à 0").toList := by
    unfold priceErrors
    rcases hprice with h | h
    · simp [h]
    · rw [JSNumber.le_zero_eq_not_lt _ h]
      cases d.price.toBoolean <;> cases JSNumber.lt 0 (toNumber platform d.price) <;> rfl
  have hd : deliveryDateErrors platform.dateParse now d.deliveryDate
      = (if d.deliveryDate.toBoolean then
          (match newDate platform.dateParse d.deliveryDate with
            | some t =>
              if now < t then none else some "La date de livraison doit être dans le futur"
            | none => some "La date de livraison doit être dans le futur")
         else some "La date de livraison est requise").toList := by
    unfold deliveryDateErrors
    rcases hdate with h | h
    · simp [h]
    · cases hb : d.deliveryDate.toBoolean
      · simp
      · cases hn : newDate platform.dateParse d.deliveryDate with
        | none => exact absurd hn h
        | some t => by_cases ht : t ≤ now <;> simp [dateLe, ht, not_lt.2, not_le.1]
  rw [hp, hd, hpay, hpresence, hpresence, hpresence]
  exact (filterMap_id_six _ _ _ _ _ _).symm

/-- On the empty object `validateOrderData` returns the five messages of the first five
checks, in their order, and none for the payment method. -/
theorem validateOrderData_empty (platform : Platform) (now : ℤ) :
    validateOrderData platform now {}
      = ["Le plat est requis", "Le client est requis", "La catégorie est requise",
         "Le prix doit être supérieur à 0", "La date de livraison est requise"] := by
  rfl

/-- C2, at a failing input: on `{ deliveryDate: "bientôt" }` the checks of the specification
fail in this order: plat, customer, category, price, and deliveryDate (the
value is present and is not a date later than now); `validateOrderData`
returns the first four messages only. -/
theorem validateOrderData_failingChecks_unparseable_date :
    validateOrderData examplePlatform 1700000000000 orderWithOnlyADate
        = ["Le plat est requis", "Le client est requis", "La catégorie est requise",
           "Le prix doit être supérieur à 0"]
    ∧ (failingChecks examplePlatform 1700000000000 orderWithOnlyADate).filterMap id
        = ["Le plat est requis", "Le client est requis", "La catégorie est requise",
           "Le prix doit être supérieur à 0", "La date de livraison doit être dans le futur"]
    ∧ validateOrderData examplePlatform 1700000000000 orderWithOnlyADate
        ≠ (failingChecks examplePlatform 1700000000000 orderWithOnlyADate).filterMap id := by
  have h1 : validateOrderData examplePlatform 1700000000000 orderWithOnlyADate
      = ["Le plat est requis", "Le client est requis", "La catégorie est requise",
         "Le prix doit être supérieur à 0"] := by decide!
  have h2 : (failingChecks examplePlatform 1700000000000 orderWithOnlyADate).filterMap id
      = ["Le plat est requis", "Le client est requis", "La catégorie est requise",
         "Le prix doit être supérieur à 0", "La date de livraison doit être dans le futur"] := by
    decide!
  refine ⟨h1, h2, ?_⟩
  rw [h1, h2]
  decide

/-- C3, at the failing input: `deliveryDate: "pas une date"` is present and does not parse
to a valid date, yet `validateOrderData` does not produce the message that
the date must be in the future; it returns no error at all. -/
theorem validateOrderData_unparseable_date_accepted :
    orderWithUnparseableDate.deliveryDate.toBoolean = true
    ∧ newDate examplePlatform.dateParse orderWithUnparseableDate.deliveryDate = none
    ∧ "La date de livraison doit être dans le futur"
        ∉ validateOrderData examplePlatform 1700000000000 orderWithUnparseableDate
    ∧ validateOrderData examplePlatform 1700000000000 orderWithUnparseableDate = [] := by
  have h : validateOrderData examplePlatform 1700000000000 orderWithUnparseableDate = [] := by
    decide!
  refine ⟨by decide, by decide, ?_, h⟩
  rw [h]; simp

/-- What the delivery-date check does: the message that the date must be in the future is
produced exactly when `deliveryDate` is present and parses to a valid date
that is not later than the current instant, and the message that the date
is required exactly when `deliveryDate` is absent. -/
theorem validateOrderData_deliveryDate (platform : Platform) (now : ℤ) (d : OrderData) :
    ("La date de livraison doit être dans le futur" ∈ validateOrderData platform now d
      ↔ (d.deliveryDate.toBoolean = true
          ∧ ∃ t, newDate platform.dateParse d.deliveryDate = some t ∧ t ≤ now))
    ∧ ("La date de livraison est requise" ∈ validateOrderData platform now d
      ↔ d.deliveryDate.toBoolean = false) := by
  constructor
  · rw [mem_validateOrderData]
    simp only [presenceErrors_mem, priceErrors_mem, deliveryDateErrors_mem, payMethodErrors_mem]
    simp
  · rw [mem_validateOrderData]
    simp only [presenceErrors_mem, priceErrors_mem, deliveryDateErrors_mem, payMethodErrors_mem]
    simp

/-- Numeric timestamps go through `TimeClip`: one in the past yields the message that the
date must be in the future, one in the future yields no message, with or
without a fraction of a millisecond, and one beyond the range of dates is an
invalid date, which yields no message either. -/
theorem validateOrderData_timestamps :
    validateOrderData examplePlatform 1700000000000 (orderDueOn (.number 1600000000000))
        = ["La date de livraison doit être dans le futur"]
    ∧ validateOrderData examplePlatform 1700000000000 (orderDueOn (.number 1700000000000))
        = ["La date de livraison doit être dans le futur"]
    ∧ validateOrderData examplePlatform 1700000000000 (orderDueOn (.number (3400000000001 / 2)))
        = ["La date de livraison doit être dans le futur"]
    ∧ validateOrderData examplePlatform 1700000000000 (orderDueOn (.number 1700000000001)) = []
    ∧ validateOrderData examplePlatform 1700000000000 (orderDueOn (.number (10 ^ 16))) = []
    ∧ timeClip (-7 / 2) = some (-3) := by
  refine ⟨?_, ?_, ?_, ?_, ?_, ?_⟩ <;> decide!

/-- What the price check does: the message is omitted exactly when the price is truthy and
is not, as a number, less than or equal to 0; for a price that is a number
this is the case exactly when it is strictly greater than 0, and a missing
price yields the message. -/
theorem validateOrderData_price_number (platform : Platform) (now : ℤ) (d : OrderData) :
    ("Le prix doit être supérieur à 0" ∉ validateOrderData platform now d
      ↔ (d.price.toBoolean = true ∧ JSNumber.le (toNumber platform d.price) 0 = false))
    ∧ (∀ q : ℚ, d.price = .number q →
        ("Le prix doit être supérieur à 0" ∉ validateOrderData platform now d ↔ 0 < q))
    ∧ "Le prix doit être supérieur à 0"
        ∈ validateOrderData platform now { d with price := .undefined }
    ∧ "Le prix doit être supérieur à 0"
        ∈ validateOrderData platform now { d with price := .number 0 }
    ∧ "Le prix doit être supérieur à 0"
        ∈ validateOrderData platform now { d with price := .number (-5) }
    ∧ "Le prix doit être supérieur à 0"
        ∉ validateOrderData platform now { d with price := .number 10 } := by
  have key : ∀ d : OrderData,
      ("Le prix doit être supérieur à 0" ∉ validateOrderData platform now d
        ↔ (d.price.toBoolean = true ∧ JSNumber.le (toNumber platform d.price) 0 = false)) := by
    intro d
    rw [mem_validateOrderData]
    simp only [presenceErrors_mem, priceErrors_mem, deliveryDateErrors_mem, payMethodErrors_mem]
    simp
  have hnum : ∀ (d : OrderData) (q : ℚ), d.price = .number q →
      ("Le prix doit être supérieur à 0" ∉ validateOrderData platform now d ↔ 0 < q) := by
    intro d q hq
    rw [key, hq, ← price_test_number platform q]
    cases (JSValue.number q).toBoolean <;>
      cases JSNumber.le (toNumber platform (.number q)) 0 <;> simp
  refine ⟨key d, hnum d, ?_, ?_, ?_, ?_⟩
  · by_contra h
    have := (key { d with price := .undefined }).1 h
    simp [JSValue.toBoolean] at this
  · by_contra h
    have := (hnum { d with price := .number 0 } 0 rfl).1 h
    simp at this
  · by_contra h
    have := (hnum { d with price := .number (-5) } (-5) rfl).1 h
    norm_num at this
  · exact (hnum { d with price := .number 10 } 10 rfl).2 (by norm_num)

/-- C4, at the failing input: the price `"abc"` is present and is not a number greater
than 0, yet `validateOrderData` does not produce the price message; it
returns no error at all.  The same holds of a price that is a plain object. -/
theorem validateOrderData_text_price_accepted :
    (JSValue.string "abc").toBoolean = true
    ∧ toNumber examplePlatform (.string "abc") = JSNumber.nan
    ∧ JSNumber.lt 0 (toNumber examplePlatform (.string "abc")) = false
    ∧ "Le prix doit être supérieur à 0"
        ∉ validateOrderData examplePlatform 1700000000000 (orderPriced (.string "abc"))
    ∧ validateOrderData examplePlatform 1700000000000 (orderPriced (.string "abc")) = []
    ∧ validateOrderData examplePlatform 1700000000000 (orderPriced (.object [])) = [] := by
  have h : validateOrderData examplePlatform 1700000000000 (orderPriced (.string "abc")) = [] := by
    decide!
  refine ⟨by decide, by decide, by decide, ?_, h, by decide!⟩
  rw [h]; simp

/-- Prices that are not numbers, by conversion: the numeric text `"10"` and the array
`[10]` convert to 10 and yield no message, the empty array converts to 0 and
yields the price message. -/
theorem validateOrderData_converted_prices :
    validateOrderData examplePlatform 1700000000000 (orderPriced (.string "10")) = []
    ∧ validateOrderData examplePlatform 1700000000000 (orderPriced (.array [.number 10])) = []
    ∧ validateOrderData examplePlatform 1700000000000 (orderPriced (.array []))
        = ["Le prix doit être supérieur à 0"]
    ∧ validateOrderData examplePlatform 1700000000000 (orderPriced (.bool true)) = [] := by
  refine ⟨?_, ?_, ?_, ?_⟩ <;> decide!

/-- C5. When plat, customer and category are present, the price is positive and the delivery
date is strictly in the future, `validateOrderData` returns the single
message of the payment method when `payMethod` is supplied (non-empty) and
is none of the three accepted labels, and returns no message when
`payMethod` is absent or empty, or is one of the three labels. -/
theorem validateOrderData_payMethod (platform : Platform) (now : ℤ) (d : OrderData)
    (hplat : d.plat.toBoolean = true) (hcustomer : d.customer.toBoolean = true)
    (hcategory : d.category.toBoolean = true) (hprice : ∃ q, d.price = .number q ∧ 0 < q)
    (hpresent : d.deliveryDate.toBoolean = true)
    (hfuture : ∃ t, newDate platform.dateParse d.deliveryDate = some t ∧ now < t) :
    ((d.payMethod.toBoolean = true ∧ d.payMethod ≠ .string "MTN MoMo"
        ∧ d.payMethod ≠ .string "Orange Money" ∧ d.payMethod ≠ .string "Wave")
      → validateOrderData platform now d = ["Méthode de paiement invalide"])
    ∧ ((d.payMethod.toBoolean = false ∨ d.payMethod = .string "MTN MoMo"
        ∨ d.payMethod = .string "Orange Money" ∨ d.payMethod = .string "Wave")
      → validateOrderData platform now d = []) := by
  obtain ⟨t, ht, hlt⟩ := hfuture
  obtain ⟨q, hq, hpos⟩ := hprice
  have hp : (!d.price.toBoolean || JSNumber.le (toNumber platform d.price) 0) = false := by
    rw [hq]; exact (price_test_number platform q).2 hpos
  have hd : dateLe (newDate platform.dateParse d.deliveryDate) (some now) = false := by
    rw [ht]; simp [dateLe, hlt]
  have hbase : validateOrderData platform now d = payMethodErrors d.payMethod := by
    rw [validateOrderData_eq_append]
    simp [presenceErrors, priceErrors, deliveryDateErrors, hplat, hcustomer, hcategory, hp,
      hpresent, hd]
  rw [hbase]
  constructor
  · rintro ⟨htruthy, h1, h2, h3⟩
    have hinc : includes payMethods d.payMethod = false := by
      cases hi : includes payMethods d.payMethod with
      | false => rfl
      | true =>
        rcases (includes_payMethods_iff d.payMethod).1 hi with h | h | h
        · exact absurd h h1
        · exact absurd h h2
        · exact absurd h h3
    simp [payMethodErrors, htruthy, hinc]
  · intro h
    rcases h with h | h
    · simp [payMethodErrors, h]
    · have hinc : includes payMethods d.payMethod = true :=
        (includes_payMethods_iff d.payMethod).2 h
      simp [payMethodErrors, hinc]

/-- Instance of C5: `payMethod: "Bitcoin"` yields exactly the payment-method message,
`payMethod: "Wave"` and a missing `payMethod` yield none. -/
theorem validateOrderData_payMethod_witness :
    validateOrderData examplePlatform 1700000000000 (orderPaidWith (.string "Bitcoin"))
        = ["Méthode de paiement invalide"]
    ∧ validateOrderData examplePlatform 1700000000000 (orderPaidWith (.string "Wave")) = []
    ∧ validateOrderData examplePlatform 1700000000000 (orderPaidWith .undefined) = [] :=
  ⟨(validateOrderData_payMethod examplePlatform 1700000000000 (orderPaidWith (.string "Bitcoin"))
      rfl rfl rfl ⟨2500, rfl, by norm_num⟩ rfl ⟨4102444800000, by decide, by decide⟩).1
      ⟨rfl, by simp [orderPaidWith], by simp [orderPaidWith], by simp [orderPaidWith]⟩,
   (validateOrderData_payMethod examplePlatform 1700000000000 (orderPaidWith (.string "Wave"))
      rfl rfl rfl ⟨2500, rfl, by norm_num⟩ rfl ⟨4102444800000, by decide, by decide⟩).2
      (Or.inr (Or.inr (Or.inr rfl))),
   (validateOrderData_payMethod examplePlatform 1700000000000 (orderPaidWith .undefined)
      rfl rfl rfl ⟨2500, rfl, by norm_num⟩ rfl ⟨4102444800000, by decide, by decide⟩).2
      (Or.inl rfl)⟩

/-! ## Network operations: theorems -/

theorem messageOr_of_nonempty (m fallback : String) (hm : m ≠ "") :
    messageOr (some m) fallback = m := by
  simp [messageOr, hm]

theorem messageOr_of_absent (message : Option String) (fallback : String)
    (h : message = none ∨ message = some "") : messageOr message fallback = fallback := by
  rcases h with h | h <;> simp [messageOr, h]

theorem getUserOrders_fst {σ : Type} (apiMethods : ApiMethods σ) (s : σ) :
    (getUserOrders apiMethods s).1
      = match (apiMethods.get "/orders/user" .undefined s).1 with
        | .ok response => .ok (response.data.or (.array []))
        | .error error =>
          .error ⟨messageOr error.message "Impossible de récupérer les commandes"⟩ := by
  unfold getUserOrders
  have hurl : baseURL ++ "/user" = "/orders/user" := by decide
  rw [hurl]
  rcases apiMethods.get "/orders/user" .undefined s with ⟨r | r, s'⟩ <;> rfl

theorem getAllOrders_fst {σ : Type} (apiMethods : ApiMethods σ) (filters : JSValue) (s : σ) :
    (getAllOrders apiMethods filters s).1
      = match (apiMethods.get "/orders" (filters.orDefault (.object [])) s).1 with
        | .ok response => .ok (response.data.or (.array []))
        | .error error =>
          .error ⟨messageOr error.message "Impossible de récupérer les commandes"⟩ := by
  simp only [getAllOrders]
  have hurl : baseURL = "/orders" := by decide
  rw [hurl]
  rcases apiMethods.get "/orders" (filters.orDefault (.object [])) s with ⟨r | r, s'⟩ <;> rfl

theorem getOrderById_fst {σ : Type} (apiMethods : ApiMethods σ) (orderId : String) (s : σ) :
    (getOrderById apiMethods orderId s).1
      = match (apiMethods.get ("/orders" ++ "/" ++ orderId) .undefined s).1 with
        | .ok response => .ok response.data
        | .error error => .error ⟨messageOr error.message "Commande non trouvée"⟩ := by
  unfold getOrderById
  have hurl : baseURL = "/orders" := by decide
  rw [hurl]
  rcases apiMethods.get ("/orders" ++ "/" ++ orderId) .undefined s with ⟨r | r, s'⟩ <;> rfl

theorem createOrder_fst {σ : Type} (apiMethods : ApiMethods σ) (orderData : JSValue) (s : σ) :
    (createOrder apiMethods orderData s).1
      = match (apiMethods.post "/orders" orderData s).1 with
        | .ok response => .ok response.data
        | .error error => .error ⟨messageOr error.message "Impossible de créer la commande"⟩ := by
  unfold createOrder
  have hurl : baseURL = "/orders" := by decide
  rw [hurl]
  rcases apiMethods.post "/orders" orderData s with ⟨r | r, s'⟩ <;> rfl

theorem updateOrderStatus_fst {σ : Type} (apiMethods : ApiMethods σ) (orderId : String)
    (status : JSValue) (s : σ) :
    (updateOrderStatus apiMethods orderId status s).1
      = match (apiMethods.patch ("/orders" ++ "/" ++ orderId ++ "/status")
            (.object [("status", status)]) s).1 with
        | .ok response => .ok response.data
        | .error error =>
          .error ⟨messageOr error.message "Impossible de mettre à jour le statut"⟩ := by
  unfold updateOrderStatus
  have hurl : baseURL = "/orders" := by decide
  rw [hurl]
  rcases apiMethods.patch ("/orders" ++ "/" ++ orderId ++ "/status")
    (.object [("status", status)]) s with ⟨r | r, s'⟩ <;> rfl

theorem cancelOrder_fst {σ : Type} (apiMethods : ApiMethods σ) (orderId : String)
    (reason : JSValue) (s : σ) :
    (cancelOrder apiMethods orderId reason s).1
      = match (apiMethods.patch ("/orders" ++ "/" ++ orderId ++ "/cancel")
            (.object [("reason", reason.orDefault (.string "Annulée par l'utilisateur"))]) s).1 with
        | .ok response => .ok response.data
        | .error error =>
          .error ⟨messageOr error.message "Impossible d'annuler la commande"⟩ := by
  simp only [cancelOrder]
  have hurl : baseURL = "/orders" := by decide
  rw [hurl]
  rcases apiMethods.patch ("/orders" ++ "/" ++ orderId ++ "/cancel")
    (.object [("reason", reason.orDefault (.string "Annulée par l'utilisateur"))]) s
    with ⟨r | r, s'⟩ <;> rfl

theorem addOrderReview_fst {σ : Type} (apiMethods : ApiMethods σ) (orderId : String)
    (reviewData : JSValue) (s : σ) :
    (addOrderReview apiMethods orderId reviewData s).1
      = match (apiMethods.post ("/orders" ++ "/" ++ orderId ++ "/review") reviewData s).1 with
        | .ok response => .ok response.data
        | .error error => .error ⟨messageOr error.message "Impossible d'ajouter l'avis"⟩ := by
  unfold addOrderReview
  have hurl : baseURL = "/orders" := by decide
  rw [hurl]
  rcases apiMethods.post ("/orders" ++ "/" ++ orderId ++ "/review") reviewData s
    with ⟨r | r, s'⟩ <;> rfl

theorem getOrderStats_fst {σ : Type} (apiMethods : ApiMethods σ) (filters : JSValue) (s : σ) :
    (getOrderStats apiMethods filters s).1
      = match (apiMethods.get "/orders/stats" (filters.orDefault (.object [])) s).1 with
        | .ok response => .ok response.data
        | .error error =>
          .error ⟨messageOr error.message "Impossible de récupérer les statistiques"⟩ := by
  simp only [getOrderStats]
  have hurl : baseURL ++ "/stats" = "/orders/stats" := by decide
  rw [hurl]
  rcases apiMethods.get "/orders/stats" (filters.orDefault (.object [])) s
    with ⟨r | r, s'⟩ <;> rfl

/-- C6. When the transport fails with an error `e`, each of the eight network operations
fails, and the error it raises carries the message of `e` when `e` has a
(non-empty) message and the fallback string of the operation otherwise. -/
theorem network_operations_failure {σ : Type} (apiMethods : ApiMethods σ) (s : σ)
    (e : TransportError)
    (hget : ∀ url params, (apiMethods.get url params s).1 = .error e)
    (hpost : ∀ url body, (apiMethods.post url body s).1 = .error e)
    (hpatch : ∀ url body, (apiMethods.patch url body s).1 = .error e)
    (orderId : String) (orderData status reason reviewData filters : JSValue) :
    (∀ m : String, e.message = some m → m ≠ "" →
      (getUserOrders apiMethods s).1 = .error ⟨m⟩
      ∧ (getAllOrders apiMethods filters s).1 = .error ⟨m⟩
      ∧ (getOrderById apiMethods orderId s).1 = .error ⟨m⟩
      ∧ (createOrder apiMethods orderData s).1 = .error ⟨m⟩
      ∧ (updateOrderStatus apiMethods orderId status s).1 = .error ⟨m⟩
      ∧ (cancelOrder apiMethods orderId reason s).1 = .error ⟨m⟩
      ∧ (addOrderReview apiMethods orderId reviewData s).1 = .error ⟨m⟩
      ∧ (getOrderStats apiMethods filters s).1 = .error ⟨m⟩)
    ∧ ((e.message = none ∨ e.message = some "") →
      (getUserOrders apiMethods s).1 = .error ⟨"Impossible de récupérer les commandes"⟩
      ∧ (getAllOrders apiMethods filters s).1 = .error ⟨"Impossible de récupérer les commandes"⟩
      ∧ (getOrderById apiMethods orderId s).1 = .error ⟨"Commande non trouvée"⟩
      ∧ (createOrder apiMethods orderData s).1 = .error ⟨"Impossible de créer la commande"⟩
      ∧ (updateOrderStatus apiMethods orderId status s).1
          = .error ⟨"Impossible de mettre à jour le statut"⟩
      ∧ (cancelOrder apiMethods orderId reason s).1 = .error ⟨"Impossible d'annuler la commande"⟩
      ∧ (addOrderReview apiMethods orderId reviewData s).1 = .error ⟨"Impossible d'ajouter l'avis"⟩
      ∧ (getOrderStats apiMethods filters s).1
          = .error ⟨"Impossible de récupérer les statistiques"⟩) := by
  rw [getUserOrders_fst, getAllOrders_fst, getOrderById_fst, createOrder_fst,
    updateOrderStatus_fst, cancelOrder_fst, addOrderReview_fst, getOrderStats_fst]
  simp only [hget, hpost, hpatch]
  constructor
  · intro m hm hne
    simp only [hm, messageOr_of_nonempty m _ hne]
    exact ⟨trivial, trivial, trivial, trivial, trivial, trivial, trivial, trivial⟩
  · intro h
    simp only [messageOr_of_absent e.message _ h]
    exact ⟨trivial, trivial, trivial, trivial, trivial, trivial, trivial, trivial⟩

/-- Instance of C6: `createOrder` over a transport failing with message "Network error" fails
with "Network error", and over a transport failing without a message it
fails with its fallback string. -/
theorem network_operations_failure_witness :
    (createOrder (constant (.error ⟨some "Network error"⟩)) (.object []) 0).1
        = .error ⟨"Network error"⟩
    ∧ (createOrder (constant (.error ⟨none⟩)) (.object []) 0).1
        = .error ⟨"Impossible de créer la commande"⟩ :=
  ⟨((network_operations_failure (constant (.error ⟨some "Network error"⟩)) 0
        ⟨some "Network error"⟩ (fun _ _ => rfl) (fun _ _ => rfl) (fun _ _ => rfl)
        "42" (.object []) .undefined .undefined .undefined .undefined).1
        "Network error" rfl (by decide)).2.2.2.1,
   ((network_operations_failure (constant (.error ⟨none⟩)) 0
        ⟨none⟩ (fun _ _ => rfl) (fun _ _ => rfl) (fun _ _ => rfl)
        "42" (.object []) .undefined .undefined .undefined .undefined).2
        (Or.inl rfl)).2.2.2.1⟩

/-- C7. On a successful transport response `getUserOrders` and `getAllOrders` return the
`data` field when it is truthy and the empty array when it is absent or
falsy (`null`, `undefined`, `0`, the empty string and `false` are falsy), so
that the value returned is never `null` nor `undefined`. -/
theorem list_queries_data_or_empty {σ : Type} (apiMethods : ApiMethods σ) (s : σ)
    (r : Response) (hget : ∀ url params, (apiMethods.get url params s).1 = .ok r)
    (filters : JSValue) :
    (r.data.toBoolean = true →
      (getUserOrders apiMethods s).1 = .ok r.data
      ∧ (getAllOrders apiMethods filters s).1 = .ok r.data)
    ∧ (r.data.toBoolean = false →
      (getUserOrders apiMethods s).1 = .ok (.array [])
      ∧ (getAllOrders apiMethods filters s).1 = .ok (.array []))
    ∧ (∀ v : JSValue,
        ((getUserOrders apiMethods s).1 = .ok v ∨ (getAllOrders apiMethods filters s).1 = .ok v)
        → v ≠ .null ∧ v ≠ .undefined)
    ∧ (JSValue.null.toBoolean = false ∧ JSValue.undefined.toBoolean = false
        ∧ (JSValue.number 0).toBoolean = false ∧ (JSValue.string "").toBoolean = false
        ∧ (JSValue.bool false).toBoolean = false) := by
  rw [getUserOrders_fst, getAllOrders_fst]
  simp only [hget]
  refine ⟨?_, ?_, ?_, ?_⟩
  · intro h
    simp [JSValue.or, h]
  · intro h
    simp [JSValue.or, h]
  · intro v hv
    have hv' : r.data.or (.array []) = v := by
      rcases hv with hv | hv <;> exact Except.ok.inj hv
    subst hv'
    unfold JSValue.or
    cases hd : r.data.toBoolean with
    | false => simp
    | true =>
      simp only [if_true]
      constructor
      · intro h; rw [h] at hd; simp [JSValue.toBoolean] at hd
      · intro h; rw [h] at hd; simp [JSValue.toBoolean] at hd
  · simp [JSValue.toBoolean]

/-- Instance of C7: over a transport answering `{ data: null }` both list queries return
the empty array. -/
theorem list_queries_data_or_empty_witness :
    (getUserOrders (constant (.ok ⟨.null⟩)) 0).1 = .ok (.array [])
    ∧ (getAllOrders (constant (.ok ⟨.null⟩)) .undefined 0).1 = .ok (.array []) :=
  (list_queries_data_or_empty (constant (.ok ⟨.null⟩)) 0 ⟨.null⟩ (fun _ _ => rfl)
    .undefined).2.1 rfl

/-- C8. `getAllOrders(f)` issues one `get` on `/orders` whose parameters are `f` itself, and
`getOrderStats(f)` one `get` on `/orders/stats` whose parameters are `f`
itself, whatever the transport answers; when the filters are omitted the
parameters are the empty object. -/
theorem filters_forwarded (respond : Call → Except TransportError Response) (log : List Call)
    (f : JSValue) (hf : f ≠ .undefined) :
    (getAllOrders (recording respond) f log).2 = log ++ [⟨.GET, "/orders", f⟩]
    ∧ (getOrderStats (recording respond) f log).2 = log ++ [⟨.GET, "/orders/stats", f⟩]
    ∧ (getAllOrders (recording respond) .undefined log).2
        = log ++ [⟨.GET, "/orders", .object []⟩]
    ∧ (getOrderStats (recording respond) .undefined log).2
        = log ++ [⟨.GET, "/orders/stats", .object []⟩] := by
  have hdef : f.orDefault (.object []) = f := by
    cases f <;> first | rfl | exact absurd rfl hf
  have h1 : baseURL = "/orders" := by decide
  have h2 : baseURL ++ "/stats" = "/orders/stats" := by decide
  refine ⟨?_, ?_, ?_, ?_⟩
  · simp only [getAllOrders, hdef, h1, recording]
    cases respond ⟨.GET, "/orders", f⟩ <;> rfl
  · simp only [getOrderStats, hdef, h2, recording]
    cases respond ⟨.GET, "/orders/stats", f⟩ <;> rfl
  · simp only [getAllOrders, JSValue.orDefault, h1, recording]
    cases respond ⟨.GET, "/orders", .object []⟩ <;> rfl
  · simp only [getOrderStats, JSValue.orDefault, h2, recording]
    cases respond ⟨.GET, "/orders/stats", .object []⟩ <;> rfl

/-- Instance of C8: the filters `{ status: "pending", page: 2 }` reach the transport as they
are. -/
theorem filters_forwarded_witness :
    (getAllOrders (recording (fun _ => .ok ⟨.array []⟩))
        (.object [("status", .string "pending"), ("page", .number 2)]) []).2
      = [⟨.GET, "/orders", .object [("status", .string "pending"), ("page", .number 2)]⟩]
    ∧ (getOrderStats (recording (fun _ => .ok ⟨.array []⟩))
        (.object [("status", .string "pending"), ("page", .number 2)]) []).2
      = [⟨.GET, "/orders/stats",
          .object [("status", .string "pending"), ("page", .number 2)]⟩] :=
  ⟨(filters_forwarded (fun _ => .ok ⟨.array []⟩) []
      (.object [("status", .string "pending"), ("page", .number 2)]) (by simp)).1,
   (filters_forwarded (fun _ => .ok ⟨.array []⟩) []
      (.object [("status", .string "pending"), ("page", .number 2)]) (by simp)).2.1⟩

/-- C9. On a successful transport response `r`, each of `createOrder`, `updateOrderStatus`,
`cancelOrder` and `addOrderReview` returns the `data` field of `r` as it
is, whatever the value of that field, the request payload and the state the
transport is in. -/
theorem mutations_return_data {σ : Type} (apiMethods : ApiMethods σ) (s : σ) (r : Response)
    (hpost : ∀ url body, (apiMethods.post url body s).1 = .ok r)
    (hpatch : ∀ url body, (apiMethods.patch url body s).1 = .ok r)
    (orderId : String) (orderData status reason reviewData : JSValue) :
    (createOrder apiMethods orderData s).1 = .ok r.data
    ∧ (updateOrderStatus apiMethods orderId status s).1 = .ok r.data
    ∧ (cancelOrder apiMethods orderId reason s).1 = .ok r.data
    ∧ (addOrderReview apiMethods orderId reviewData s).1 = .ok r.data := by
  rw [createOrder_fst, updateOrderStatus_fst, cancelOrder_fst, addOrderReview_fst]
  simp only [hpost, hpatch]
  exact ⟨trivial, trivial, trivial, trivial⟩

/-- Instance of C9: over a transport answering `{ data: null }`, after seven earlier calls,
`createOrder` and `cancelOrder` return `null`. -/
theorem mutations_return_data_witness :
    (createOrder (constant (.ok ⟨.null⟩)) (.object [("plat", .string "Garba")]) 7).1 = .ok .null
    ∧ (cancelOrder (constant (.ok ⟨.null⟩)) "42" .undefined 7).1 = .ok .null :=
  ⟨(mutations_return_data (constant (.ok ⟨.null⟩)) 7 ⟨.null⟩ (fun _ _ => rfl) (fun _ _ => rfl)
      "42" (.object [("plat", .string "Garba")]) .undefined .undefined .undefined).1,
   (mutations_return_data (constant (.ok ⟨.null⟩)) 7 ⟨.null⟩ (fun _ _ => rfl) (fun _ _ => rfl)
      "42" (.object [("plat", .string "Garba")]) .undefined .undefined .undefined).2.2.1⟩

end OrderService

